import Mathlib

/-!
Verification of the Qt wrapper for the resvg C-API (`capi/include/ResvgQt.h`).

The header is a thin stateful façade over two external collaborators:

* the resvg engine (parse, destroy, viewbox, emptiness, bounding boxes,
  per-node transforms, rendering), whose implementation is not part of the
  wrapper; it is modelled here as a record of abstract functions following
  the engine contract in the specification (section 6);
* the Qt toolkit types (`QRectF`, `QSizeF`, `QSize`, `QTransform`,
  `QPainter`, resource files), modelled with their documented Qt semantics
  (e.g. `QSizeF::toSize` rounds with `qRound`, a default-constructed
  `QSizeF` is the invalid size `(-1, -1)`, a default-constructed `QRectF`
  is the zero rectangle, `QRectF::isValid` requires positive width and
  height).

Real-valued Qt quantities are modelled with rationals; none of the claims
under study depend on floating-point rounding of the wrapper itself.
-/

namespace ResvgQt

/-- Model of `QRectF` (and of the engine's `resvg_rect`): x, y, width,
height as reals.  A default-constructed `QRectF` is the zero rectangle. -/
structure QRectF where
  x : ℚ
  y : ℚ
  w : ℚ
  h : ℚ

/-- The zero rectangle, the value of a default-constructed `QRectF`. -/
def QRectF.zero : QRectF := ⟨0, 0, 0, 0⟩

/-- `QRectF::isValid`: positive width and positive height. -/
def QRectF.isValid (r : QRectF) : Bool := 0 < r.w && 0 < r.h

/-- Model of `QSizeF`. -/
structure QSizeF where
  w : ℚ
  h : ℚ

/-- A default-constructed `QSizeF` is the invalid size: both components
are `-1` in Qt. -/
def QSizeF.invalid : QSizeF := ⟨-1, -1⟩

/-- Model of `QSize` (integer components). -/
structure QSize where
  w : ℤ
  h : ℤ

/-- Qt's `qRound`: `d >= 0 ? int(d + 0.5) : int(d - 0.5)`, where the C
cast to `int` truncates toward zero. -/
def qRound (q : ℚ) : ℤ := if 0 ≤ q then ⌊q + 1/2⌋ else ⌈q - 1/2⌉

/-- `QSizeF::toSize`: each component rounded to the nearest integer with
`qRound`. -/
def QSizeF.toSize (s : QSizeF) : QSize := ⟨qRound s.w, qRound s.h⟩

/-- C truncation of a nonnegative real to an unsigned integer, as in the
`(uint)` casts building `resvg_size`. -/
def cUInt (q : ℚ) : ℕ := ⌊q⌋.toNat

/-- Model of the engine's `resvg_size` (unsigned integer components). -/
structure ResvgSize where
  w : ℕ
  h : ℕ

/-- Model of `QTransform` restricted to the affine components the wrapper
uses: the map `(x, y) ↦ (a·x + c·y + e, b·x + d·y + f)`. -/
structure QTransform where
  a : ℚ
  b : ℚ
  c : ℚ
  d : ℚ
  e : ℚ
  f : ℚ

/-- Qt `QTransform` product `m * n` in Qt's row-vector convention: the
composite maps a point through `m` first, then through `n`.
`QPainter::setTransform(m, combine = true)` sets the world transform to
`m * world`. -/
def QTransform.comp (m n : QTransform) : QTransform :=
  ⟨m.a * n.a + m.b * n.c,
   m.a * n.b + m.b * n.d,
   m.c * n.a + m.d * n.c,
   m.c * n.b + m.d * n.d,
   m.e * n.a + m.f * n.c + n.e,
   m.e * n.b + m.f * n.d + n.f⟩

/-- The painter render hints the wrapper touches. -/
structure RenderHints where
  antialiasing : Bool

/-- The painter state that `QPainter::save` snapshots and
`QPainter::restore` brings back: world transform, clip region (opaque to
the wrapper, modelled as a list of rectangles), render hints. -/
structure PState where
  transform : QTransform
  clip : List QRectF
  hints : RenderHints

/-- Model of `QPainter`: current state, the save stack, and the viewport
rectangle (read-only for the wrapper). -/
structure QPainter where
  cur : PState
  stack : List PState
  viewport : QRectF

/-- `QPainter::save`: push the current state. -/
def QPainter.save (p : QPainter) : QPainter :=
  { p with stack := p.cur :: p.stack }

/-- `QPainter::restore`: pop the last saved state (no-op on an empty
stack, as in Qt, which only warns). -/
def QPainter.restore (p : QPainter) : QPainter :=
  match p.stack with
  | [] => p
  | s :: rest => { p with cur := s, stack := rest }

/-- `p->setRenderHint(QPainter::Antialiasing)`. -/
def QPainter.setRenderHintAntialiasing (p : QPainter) : QPainter :=
  { p with cur := { p.cur with hints := { p.cur.hints with antialiasing := true } } }

/-- `p->setTransform(m, true)`: combine `m` onto the current world
transform. -/
def QPainter.combineTransform (m : QTransform) (p : QPainter) : QPainter :=
  { p with cur := { p.cur with transform := QTransform.comp m p.cur.transform } }

/-- An opaque parsed scene tree handle (`resvg_render_tree *`). -/
abbrev Tree := ℕ

/-- The byte contents of a `QByteArray`. -/
abbrev Bytes := List ℕ

/-- Model of `resvg_options` as used by the wrapper: the owned base path
(`opt.path`, null or a UTF-8 path) and the DPI. -/
structure Options where
  path : Option String
  dpi : ℚ

/-- The closed set of engine error codes (`resvg_error`).  The type being
closed models the specification's demand that a code outside the set is an
unreachable contract violation (`Q_UNREACHABLE` in the source). -/
inductive ResvgError where
  | ok
  | notAnUtf8Str
  | fileOpenFailed
  | fileWriteFailed
  | invalidFileSuffix
  | malformedGzip
  | parsingFailed
  | noCanvas
deriving DecidableEq

/-- Modelled from the spec: the engine adapter and toolkit environment of
section 6, absent from the wrapper sources.  Parse entry points return an
error code together with the tree produced on success (`RESVG_OK`); the
tree component is meaningless for a failing code and is never read by the
wrapper then.  `isImageEmpty` is the engine is-empty predicate, which per
section 4.1 reports that the scene tree has no renderable nodes.
`renderWhole` and `renderNode` draw through the borrowed painter; since
the painter is only borrowed for the call and any internal save/restore
pairs are balanced, their net effect is a function on the painter's
current state.  `resources` is the toolkit's virtual-resource file API
(`QFile` on a `":/"` path): the full contents on a successful open, or
none when opening fails.  `defaultDpi` is the engine's default option DPI
(`resvg_init_options`); `screenDpi` is
`logicalDotsPerInch * devicePixelRatio` of the first screen, or none when
the display list is empty. -/
structure Engine where
  parseFile : String → Options → ResvgError × Tree
  parseData : Bytes → Options → ResvgError × Tree
  getImageViewbox : Tree → QRectF
  isImageEmpty : Tree → Bool
  nodeExists : Tree → String → Bool
  getNodeBBox : Tree → Options → String → Option QRectF
  getNodeTransform : Tree → String → Option QTransform
  renderWhole : Tree → Options → ResvgSize → PState → PState
  renderNode : Tree → Options → ResvgSize → String → PState → PState
  resources : String → Option Bytes
  defaultDpi : ℚ
  screenDpi : Option ℚ

/-- `resvg_init_options`: engine defaults — null base path, default DPI. -/
def resvgInitOptions (E : Engine) : Options :=
  { path := none, dpi := E.defaultDpi }

/-- `ResvgPrivate::initOptions`: engine defaults, then the DPI overwritten
from the first screen when one exists. -/
def initOptions (E : Engine) : Options :=
  let opt := resvgInitOptions E
  match E.screenDpi with
  | some dpi => { opt with dpi := dpi }
  | none => opt

/-- The wrapper state `ResvgPrivate::Data`: owned tree (or null), options,
stored viewbox, last error message. -/
structure Data where
  tree : Option Tree
  opt : Options
  viewBox : QRectF
  errMsg : String

/-- The destructive side effects of a reset: which trees were passed to
`resvg_tree_destroy` and which duplicated paths were deallocated. -/
structure ResetEffects where
  destroyed : List Tree
  freed : List String

/-- No side effects. -/
def ResetEffects.none : ResetEffects := ⟨[], []⟩

/-- `ResvgPrivate::Data::reset`: destroy the tree if owned, free the
duplicated path if set, reinitialise the options (defaults plus screen
DPI), clear the viewbox and the error message.  Returned together with
the destruction side effects. -/
def Data.reset (E : Engine) (d : Data) : Data × ResetEffects :=
  ({ tree := none
   , opt := initOptions E
   , viewBox := QRectF.zero
   , errMsg := "" },
   { destroyed := d.tree.toList, freed := d.opt.path.toList })

/-- `ResvgPrivate::Data` default constructor: `resvg_init_options` only
(no screen DPI overwrite happens at construction). -/
def Data.new (E : Engine) : Data :=
  { tree := none, opt := resvgInitOptions E, viewBox := QRectF.zero, errMsg := "" }

/-- `ResvgPrivate::errorToString`: the fixed message for each engine
code; empty for `RESVG_OK`.  Totality on the closed inductive type models
the `Q_UNREACHABLE` clause for codes outside the declared enum. -/
def errorToString (err : ResvgError) : String :=
  match err with
  | .ok => ""
  | .notAnUtf8Str => "The SVG content has not an UTF-8 encoding."
  | .fileOpenFailed => "Failed to open the file."
  | .fileWriteFailed => "Failed to write to the file."
  | .invalidFileSuffix => "Invalid file suffix."
  | .malformedGzip => "Not a GZip compressed data."
  | .parsingFailed => "Failed to parse an SVG data."
  | .noCanvas => "Failed to allocate the canvas."

namespace ResvgRenderer

/-- The result of a load call: the returned boolean, the wrapper state
afterwards, and the destruction effects of the reset it performed (none
when no reset ran). -/
structure LoadOut where
  ok : Bool
  st : Data
  fx : ResetEffects

/-- The options value passed to `resvg_parse_tree_from_file`: the options
after the reset, with `opt.path` set to the duplicated UTF-8 file path. -/
def loadFileOpts (E : Engine) (d : Data) (filePath : String) : Options :=
  { (d.reset E).1.opt with path := some filePath }

/-- `ResvgRenderer::load(const QByteArray &)`: reset, parse from bytes
with the current options; on success record the tree and its viewbox, on
failure record the translated error message. -/
def loadData (E : Engine) (d : Data) (data : Bytes) : LoadOut :=
  let rd := d.reset E
  let pr := E.parseData data rd.1.opt
  if pr.1 = ResvgError.ok then
    { ok := true
    , st := { rd.1 with tree := some pr.2, viewBox := E.getImageViewbox pr.2 }
    , fx := rd.2 }
  else
    { ok := false
    , st := { rd.1 with errMsg := errorToString pr.1 }
    , fx := rd.2 }

/-- `filePath.startsWith(QLatin1String(":/"))`: the first two characters
are `:` and `/`.  Stated structurally on the character list so that it
evaluates on concrete paths. -/
def isResourcePath (s : String) : Bool :=
  match s.data with
  | a :: b :: _ => a == ':' && b == '/'
  | _ => false

/-- `ResvgRenderer::load(const QString &)`: a `":/"`-prefixed path is
read through the toolkit resource API and delegated to the byte loader
(plain `false`, state untouched, when opening fails); otherwise reset,
duplicate the path into `opt.path`, parse from file, and record viewbox
or error as for the byte loader. -/
def loadFile (E : Engine) (d : Data) (filePath : String) : LoadOut :=
  if isResourcePath filePath then
    match E.resources filePath with
    | some bytes => loadData E d bytes
    | none => { ok := false, st := d, fx := ResetEffects.none }
  else
    let rd := d.reset E
    let d1 := { rd.1 with opt := loadFileOpts E d filePath }
    let pr := E.parseFile filePath d1.opt
    if pr.1 = ResvgError.ok then
      { ok := true
      , st := { d1 with tree := some pr.2, viewBox := E.getImageViewbox pr.2 }
      , fx := rd.2 }
    else
      { ok := false
      , st := { d1 with errMsg := errorToString pr.1 }
      , fx := rd.2 }

/-- `ResvgRenderer::isValid`: a document is currently owned. -/
def isValid (d : Data) : Bool := d.tree.isSome

/-- `ResvgRenderer::errorString`. -/
def errorString (d : Data) : String := d.errMsg

/-- `ResvgRenderer::isEmpty`: `true` without a document, else the
negation of `resvg_is_image_empty`. -/
def isEmpty (E : Engine) (d : Data) : Bool :=
  match d.tree with
  | some t => !(E.isImageEmpty t)
  | none => true

/-- `ResvgRenderer::defaultSizeF`: the stored viewbox size, or a
default-constructed `QSizeF` (the invalid size) without a document. -/
def defaultSizeF (d : Data) : QSizeF :=
  match d.tree with
  | some _ => ⟨d.viewBox.w, d.viewBox.h⟩
  | none => QSizeF.invalid

/-- `ResvgRenderer::defaultSize`: `defaultSizeF().toSize()`. -/
def defaultSize (d : Data) : QSize := (defaultSizeF d).toSize

/-- `ResvgRenderer::viewBoxF`. -/
def viewBoxF (d : Data) : QRectF :=
  match d.tree with
  | some _ => d.viewBox
  | none => QRectF.zero

/-- `ResvgRenderer::boundsOnElement`: zero rectangle without a document
or when the engine bounding-box query fails; on success the source
constructs `QRectF(bbox.x, bbox.y, bbox.height, bbox.width)` — note the
third argument (the width) is `bbox.height` and the fourth (the height)
is `bbox.width`. -/
def boundsOnElement (E : Engine) (d : Data) (id : String) : QRectF :=
  match d.tree with
  | none => QRectF.zero
  | some t =>
    match E.getNodeBBox t d.opt id with
    | some bbox => ⟨bbox.x, bbox.y, bbox.h, bbox.w⟩
    | none => QRectF.zero

/-- `ResvgRenderer::elementExists`. -/
def elementExists (E : Engine) (d : Data) (id : String) : Bool :=
  match d.tree with
  | none => false
  | some t => E.nodeExists t id

/-- The identity transform, the value of a default-constructed
`QTransform`. -/
def QTransformId : QTransform := ⟨1, 0, 0, 1, 0, 0⟩

/-- `ResvgRenderer::transformForElement`. -/
def transformForElement (E : Engine) (d : Data) (id : String) : QTransform :=
  match d.tree with
  | none => QTransformId
  | some t =>
    match E.getNodeTransform t id with
    | some ts => ts
    | none => QTransformId

/-- One warning on the toolkit diagnostic channel (`qWarning`): the
element with the given id has no bounding box. -/
inductive Warning where
  | noBBox (id : String)

/-- One engine draw invocation, recording the target size (and element
id for by-id rendering) together with the painter state the engine call
received. -/
inductive EngineCall where
  | whole (size : ResvgSize) (ps : PState)
  | byId (size : ResvgSize) (id : String) (ps : PState)

/-- Observable output of a render call: engine draw invocations and
diagnostic warnings, in order. -/
structure RenderLog where
  calls : List EngineCall
  warnings : List Warning

/-- `ResvgRenderer::render(QPainter *, const QRectF &)`: no-op without a
document; otherwise `r` is `bounds` when valid, else the viewport; save,
enable antialiasing, combine the scale-and-translate
`(r.w/viewBox.w, 0, 0, r.h/viewBox.h, r.x, r.y)`, render the whole tree
at the truncated viewbox size, restore. -/
def renderRect (E : Engine) (d : Data) (p : QPainter) (bounds : QRectF) :
    QPainter × RenderLog :=
  match d.tree with
  | none => (p, ⟨[], []⟩)
  | some t =>
    let r := if bounds.isValid then bounds else p.viewport
    let p1 := (p.save).setRenderHintAntialiasing
    let sx := r.w / d.viewBox.w
    let sy := r.h / d.viewBox.h
    let p2 := QPainter.combineTransform ⟨sx, 0, 0, sy, r.x, r.y⟩ p1
    let imgSize : ResvgSize := ⟨cUInt d.viewBox.w, cUInt d.viewBox.h⟩
    let p3 := { p2 with cur := E.renderWhole t d.opt imgSize p2.cur }
    (p3.restore, ⟨[EngineCall.whole imgSize p2.cur], []⟩)

/-- `ResvgRenderer::render(QPainter *)`: render with a
default-constructed (zero) bounds rectangle. -/
def render (E : Engine) (d : Data) (p : QPainter) : QPainter × RenderLog :=
  renderRect E d p QRectF.zero

/-- `ResvgRenderer::render(QPainter *, const QString &, const QRectF &)`:
no-op without a document; when the engine bounding-box query fails, one
warning and an early return before any painter mutation; otherwise save,
enable antialiasing, `r` as for whole-document rendering, combine
`(r.w/bbox.w, 0, 0, r.h/bbox.h, bounds.x, bounds.y)` — the translation
takes the caller-supplied bounds' origin — render the node at the
truncated bbox size, restore. -/
def renderById (E : Engine) (d : Data) (p : QPainter) (elementId : String)
    (bounds : QRectF) : QPainter × RenderLog :=
  match d.tree with
  | none => (p, ⟨[], []⟩)
  | some t =>
    match E.getNodeBBox t d.opt elementId with
    | none => (p, ⟨[], [Warning.noBBox elementId]⟩)
    | some bbox =>
      let p1 := (p.save).setRenderHintAntialiasing
      let r := if bounds.isValid then bounds else p.viewport
      let sx := r.w / bbox.w
      let sy := r.h / bbox.h
      let p2 := QPainter.combineTransform ⟨sx, 0, 0, sy, bounds.x, bounds.y⟩ p1
      let imgSize : ResvgSize := ⟨cUInt bbox.w, cUInt bbox.h⟩
      let p3 := { p2 with cur := E.renderNode t d.opt imgSize elementId p2.cur }
      (p3.restore, ⟨[EngineCall.byId imgSize elementId p2.cur], []⟩)

end ResvgRenderer

/-! ## Concrete fixtures used to witness the theorems -/

/-- A concrete engine: parsing always succeeds, the viewbox is 10×10,
the is-empty predicate reports `true` (no renderable nodes) for every
tree, the bounding box of every element except `"missing"` is
`(1, 2, 3, 4)`, and only the resource `":/ok"` opens, with contents
`[10, 20]`. -/
def baseEngine : Engine where
  parseFile := fun _ _ => (ResvgError.ok, 1)
  parseData := fun _ _ => (ResvgError.ok, 2)
  getImageViewbox := fun _ => ⟨0, 0, 10, 10⟩
  isImageEmpty := fun _ => true
  nodeExists := fun _ _ => true
  getNodeBBox := fun _ _ id => if id = "missing" then none else some ⟨1, 2, 3, 4⟩
  getNodeTransform := fun _ _ => none
  renderWhole := fun _ _ _ ps => ps
  renderNode := fun _ _ _ _ ps => ps
  resources := fun fp => if fp = ":/ok" then some [10, 20] else none
  defaultDpi := 96
  screenDpi := some 120

/-- `baseEngine` with both parse entry points failing. -/
def engineFail : Engine :=
  { baseEngine with
    parseFile := fun _ _ => (ResvgError.parsingFailed, 0)
    parseData := fun _ _ => (ResvgError.malformedGzip, 0) }

/-- A wrapper state owning tree `0` with a 10×10 viewbox. -/
def dOwned : Data :=
  { tree := some 0
  , opt := { path := none, dpi := 96 }
  , viewBox := ⟨0, 0, 10, 10⟩
  , errMsg := "" }

/-- As `dOwned` but with fractional viewbox dimensions 5/2 × 7/2. -/
def dHalf : Data := { dOwned with viewBox := ⟨0, 0, 5/2, 7/2⟩ }

/-- As `dOwned` but owning no document. -/
def dNoDoc : Data := { dOwned with tree := none }

/-- A concrete painter: identity transform, one clip rectangle,
antialiasing off, empty save stack, 400×200 viewport. -/
def pEx : QPainter :=
  { cur := { transform := ⟨1, 0, 0, 1, 0, 0⟩
           , clip := [⟨0, 0, 1, 1⟩]
           , hints := ⟨false⟩ }
  , stack := []
  , viewport := ⟨0, 0, 400, 200⟩ }

/-! ## Helper lemmas -/

/-- Reinitialised options always carry a null base path. -/
theorem initOptions_path_none (E : Engine) : (initOptions E).path = none := by
  unfold initOptions resvgInitOptions
  cases E.screenDpi <;> rfl

/-- A byte-array load leaves the base path null, whether or not the
parse succeeds. -/
theorem loadData_path_none (E : Engine) (d : Data) (bs : Bytes) :
    (ResvgRenderer.loadData E d bs).st.opt.path = none := by
  simp only [ResvgRenderer.loadData]
  split <;> simp [Data.reset, initOptions_path_none]

/-- `qRound` at `-1` (the components of an invalid `QSizeF`). -/
theorem qRound_neg_one : qRound (-1) = -1 := by
  unfold qRound
  rw [if_neg (by norm_num)]
  rw [show ((-1 : ℚ) - 1/2) = -(3/2) by norm_num, Int.ceil_neg]
  norm_num

/-! ## Claim theorems -/

/-- C9: reset is idempotent — applying reset twice in a row yields the
same wrapper state as applying it once (no document owned, null base
path, options reinitialised to engine defaults with display-derived DPI,
zero viewbox, empty error message), and the second application destroys
no document and releases no path. -/
theorem reset_idempotent (E : Engine) (d : Data) :
    ((d.reset E).1.reset E).1 = (d.reset E).1 ∧
    ((d.reset E).1.reset E).2 = ResetEffects.none ∧
    (d.reset E).1.tree = none ∧
    (d.reset E).1.opt = initOptions E ∧
    (d.reset E).1.viewBox = QRectF.zero ∧
    (d.reset E).1.errMsg = "" := by
  refine ⟨rfl, ?_, rfl, rfl, rfl, rfl⟩
  simp [Data.reset, ResetEffects.none, initOptions_path_none]

/-- C6: error translation is total on the closed set of engine codes
(the inductive `ResvgError`; a value outside the declared enum is
unrepresentable, mirroring the `Q_UNREACHABLE` clause): when a parse
attempt for a filesystem path fails with code `c`, `load` returns false
and the error string equals exactly the fixed message for `c`; the
translation of `OK` is the empty string, and each of the other codes
maps to its fixed message. -/
theorem load_error_translation (E : Engine) (d : Data) (fp : String)
    (c : ResvgError) (t : Tree)
    (hfp : ResvgRenderer.isResourcePath fp = false)
    (hp : E.parseFile fp (ResvgRenderer.loadFileOpts E d fp) = (c, t))
    (hc : c ≠ ResvgError.ok) :
    (ResvgRenderer.loadFile E d fp).ok = false ∧
    (ResvgRenderer.loadFile E d fp).st.errMsg = errorToString c ∧
    errorToString ResvgError.ok = "" ∧
    errorToString ResvgError.notAnUtf8Str =
      "The SVG content has not an UTF-8 encoding." ∧
    errorToString ResvgError.fileOpenFailed = "Failed to open the file." ∧
    errorToString ResvgError.fileWriteFailed = "Failed to write to the file." ∧
    errorToString ResvgError.invalidFileSuffix = "Invalid file suffix." ∧
    errorToString ResvgError.malformedGzip = "Not a GZip compressed data." ∧
    errorToString ResvgError.parsingFailed = "Failed to parse an SVG data." ∧
    errorToString ResvgError.noCanvas = "Failed to allocate the canvas." := by
  simp only [ResvgRenderer.loadFile, hfp, Bool.false_eq_true, if_false, hp]
  simp [hc, errorToString]

/-- C6 witness: a concrete failing parse — load returns false and the
error string is the fixed message for `PARSING_FAILED`. -/
theorem load_error_translation_witness :
    (ResvgRenderer.loadFile engineFail (Data.new engineFail) "bad.svg").ok = false ∧
    (ResvgRenderer.loadFile engineFail (Data.new engineFail) "bad.svg").st.errMsg =
      "Failed to parse an SVG data." :=
  ⟨(load_error_translation engineFail (Data.new engineFail) "bad.svg"
      ResvgError.parsingFailed 0 (by decide) rfl (by decide)).1,
   (load_error_translation engineFail (Data.new engineFail) "bad.svg"
      ResvgError.parsingFailed 0 (by decide) rfl (by decide)).2.1⟩

/-- C2 counterexample: a document is owned and the engine is-empty
predicate reports `true` (no renderable nodes), yet `isEmpty` returns
`false` — the wrapper returns the negation of the engine predicate, not
the predicate itself. -/
theorem isEmpty_disagrees_with_engine_predicate :
    dOwned.tree = some 0 ∧
    baseEngine.isImageEmpty 0 = true ∧
    ResvgRenderer.isEmpty baseEngine dOwned = false :=
  ⟨rfl, rfl, rfl⟩

/-- C2 amended: `isEmpty` is true exactly when no document is owned or
the engine is-empty predicate returns `false` on the owned tree — i.e.
when a document is owned, `isEmpty` is the negation of the engine
predicate. -/
theorem isEmpty_iff_no_document_or_engine_false (E : Engine) (d : Data) :
    ResvgRenderer.isEmpty E d = true ↔
      d.tree = none ∨ ∃ t, d.tree = some t ∧ E.isImageEmpty t = false := by
  cases h : d.tree <;> simp [ResvgRenderer.isEmpty, h]

/-- C1: the code evaluated at a bounding-box query succeeding with
rectangle `(x, y, width, height) = (1, 2, 3, 4)` — `boundsOnElement`
returns `(1, 2, 4, 3)`, the width and height swapped, which differs from
the rectangle `(1, 2, 3, 4)` the claim (and the function's own
documentation, "Returns bounding rectangle of the item") requires. -/
theorem boundsOnElement_swaps_width_and_height :
    baseEngine.getNodeBBox 0 dOwned.opt "e" = some ⟨1, 2, 3, 4⟩ ∧
    dOwned.tree = some 0 ∧
    ResvgRenderer.boundsOnElement baseEngine dOwned "e" = ⟨1, 2, 4, 3⟩ ∧
    (⟨1, 2, 4, 3⟩ : QRectF) ≠ ⟨1, 2, 3, 4⟩ := by
  refine ⟨rfl, rfl, rfl, ?_⟩
  simp only [ne_eq, QRectF.mk.injEq, not_and]
  intro _ _ h
  norm_num at h

/-- C3 counterexample: a load of a `":/"`-prefixed path whose resource
fails to open returns false while leaving the previously owned document
in place — `isValid` is still true afterwards, so a failed load does not
always leave the façade empty. -/
theorem failed_resource_open_keeps_document :
    ResvgRenderer.loadFile baseEngine dOwned ":/missing" =
      { ok := false, st := dOwned, fx := ResetEffects.none } ∧
    ResvgRenderer.isValid dOwned = true ∧
    ResvgRenderer.isValid
      (ResvgRenderer.loadFile baseEngine dOwned ":/missing").st = true :=
  ⟨rfl, rfl, rfl⟩

/-- C3 amended: every load call that reaches a reset — a byte-array
load, a plain filesystem-path load, or a `":/"` load whose resource
opens — leaves the façade empty when it returns false (no tree owned,
the previous document handed to the engine destructor); the one
exception is a `":/"`-prefixed load whose resource fails to open, which
returns false with the wrapper state entirely unchanged. -/
theorem load_false_state_characterisation :
    (∀ (E : Engine) (d : Data) (bs : Bytes),
        (ResvgRenderer.loadData E d bs).ok = false →
        (ResvgRenderer.loadData E d bs).st.tree = none ∧
        (ResvgRenderer.loadData E d bs).fx.destroyed = d.tree.toList) ∧
    (∀ (E : Engine) (d : Data) (fp : String),
        ResvgRenderer.isResourcePath fp = false →
        (ResvgRenderer.loadFile E d fp).ok = false →
        (ResvgRenderer.loadFile E d fp).st.tree = none ∧
        (ResvgRenderer.loadFile E d fp).fx.destroyed = d.tree.toList) ∧
    (∀ (E : Engine) (d : Data) (fp : String) (bs : Bytes),
        ResvgRenderer.isResourcePath fp = true →
        E.resources fp = some bs →
        (ResvgRenderer.loadFile E d fp).ok = false →
        (ResvgRenderer.loadFile E d fp).st.tree = none) ∧
    (∀ (E : Engine) (d : Data) (fp : String),
        ResvgRenderer.isResourcePath fp = true →
        E.resources fp = none →
        ResvgRenderer.loadFile E d fp =
          { ok := false, st := d, fx := ResetEffects.none }) := by
  have hdata : ∀ (E : Engine) (d : Data) (bs : Bytes),
      (ResvgRenderer.loadData E d bs).ok = false →
      (ResvgRenderer.loadData E d bs).st.tree = none ∧
      (ResvgRenderer.loadData E d bs).fx.destroyed = d.tree.toList := by
    intro E d bs h
    simp only [ResvgRenderer.loadData] at h ⊢
    by_cases hok : (E.parseData bs (d.reset E).1.opt).1 = ResvgError.ok
    · rw [if_pos hok] at h; simp at h
    · rw [if_neg hok]; simp [Data.reset]
  refine ⟨hdata, ?_, ?_, ?_⟩
  · intro E d fp hfp h
    simp only [ResvgRenderer.loadFile, hfp, Bool.false_eq_true, if_false] at h ⊢
    by_cases hok : (E.parseFile fp (ResvgRenderer.loadFileOpts E d fp)).1 = ResvgError.ok
    · rw [if_pos hok] at h; simp at h
    · rw [if_neg hok]; simp [Data.reset]
  · intro E d fp bs hfp hr h
    simp only [ResvgRenderer.loadFile, hfp, if_true, hr] at h ⊢
    exact (hdata E d bs h).1
  · intro E d fp hfp hr
    simp [ResvgRenderer.loadFile, hfp, hr]

/-- C3 witness: a concrete failed filesystem-path load leaves no
document owned and hands the previously owned tree to the destructor. -/
theorem load_false_state_characterisation_witness :
    (ResvgRenderer.loadFile engineFail dOwned "bad.svg").st.tree = none ∧
    (ResvgRenderer.loadFile engineFail dOwned "bad.svg").fx.destroyed = [0] :=
  load_false_state_characterisation.2.1 engineFail dOwned "bad.svg" (by decide) rfl

/-- C7 counterexample: with a document owned and viewbox dimensions
5/2 × 7/2, `defaultSize` returns `(3, 4)` — the components rounded to
the nearest integer — not the truncations `(2, 3)`; and with no document
owned, `defaultSizeF` and `defaultSize` return the toolkit's
default-constructed invalid size `(-1, -1)`, not the zero size. -/
theorem defaultSize_rounding_and_empty_case :
    ResvgRenderer.defaultSize dHalf = ⟨3, 4⟩ ∧
    (⟨⌊dHalf.viewBox.w⌋, ⌊dHalf.viewBox.h⌋⟩ : QSize) = ⟨2, 3⟩ ∧
    ResvgRenderer.defaultSizeF dNoDoc = ⟨-1, -1⟩ ∧
    ResvgRenderer.defaultSize dNoDoc = ⟨-1, -1⟩ ∧
    (⟨-1, -1⟩ : QSize) ≠ ⟨0, 0⟩ := by
  refine ⟨?_, ?_, rfl, ?_, fun h => by rw [QSize.mk.injEq] at h; exact absurd h.1 (by norm_num)⟩
  · show QSizeF.toSize ⟨5/2, 7/2⟩ = ⟨3, 4⟩
    simp only [QSizeF.toSize, qRound, QSize.mk.injEq]
    rw [if_pos (by norm_num), if_pos (by norm_num)]
    constructor <;> norm_num
  · show (⟨⌊(5 : ℚ)/2⌋, ⌊(7 : ℚ)/2⌋⟩ : QSize) = ⟨2, 3⟩
    simp only [QSize.mk.injEq]
    constructor <;> norm_num
  · show QSizeF.toSize QSizeF.invalid = ⟨-1, -1⟩
    simp [QSizeF.toSize, QSizeF.invalid, qRound_neg_one]

/-- C7 amended: with a document owned, `defaultSizeF` returns the
viewbox width and height exactly and `defaultSize` returns them each
rounded to the nearest integer (`qRound`, halves away from zero), not
truncated; with no document owned, both return the toolkit's invalid
size `(-1, -1)` (the default-constructed `QSizeF`), not the zero
size. -/
theorem defaultSize_rounds_viewbox (d : Data) :
    (∀ t, d.tree = some t →
        ResvgRenderer.defaultSizeF d = ⟨d.viewBox.w, d.viewBox.h⟩ ∧
        ResvgRenderer.defaultSize d = ⟨qRound d.viewBox.w, qRound d.viewBox.h⟩) ∧
    (d.tree = none →
        ResvgRenderer.defaultSizeF d = QSizeF.invalid ∧
        ResvgRenderer.defaultSize d = ⟨-1, -1⟩) := by
  constructor
  · intro t h
    constructor <;>
      simp [ResvgRenderer.defaultSizeF, ResvgRenderer.defaultSize, QSizeF.toSize, h]
  · intro h
    refine ⟨by simp [ResvgRenderer.defaultSizeF, h], ?_⟩
    simp [ResvgRenderer.defaultSize, ResvgRenderer.defaultSizeF, h,
      QSizeF.invalid, QSizeF.toSize, qRound_neg_one]

/-- C7 witness: the amended statement at the concrete state with
viewbox 5/2 × 7/2. -/
theorem defaultSize_rounds_viewbox_witness :
    ResvgRenderer.defaultSize dHalf = ⟨qRound dHalf.viewBox.w, qRound dHalf.viewBox.h⟩ :=
  ((defaultSize_rounds_viewbox dHalf).1 0 rfl).2

/-- C8 counterexample: after a filesystem-path load whose parse fails,
no document is owned yet `opt.path` still holds the path — the claimed
invariant "non-null exactly while the current document was loaded from a
filesystem path" does not hold between operations. -/
theorem basePath_nonnull_after_failed_file_load :
    (ResvgRenderer.loadFile engineFail (Data.new engineFail) "bad.svg").ok = false ∧
    (ResvgRenderer.loadFile engineFail (Data.new engineFail) "bad.svg").st.tree = none ∧
    (ResvgRenderer.loadFile engineFail (Data.new engineFail) "bad.svg").st.opt.path =
      some "bad.svg" :=
  ⟨rfl, rfl, rfl⟩

/-- C8 amended: `opt.path` holds exactly the UTF-8 path after every
plain filesystem-path load, whether or not the parse succeeded; it is
null after every byte-array load, after every reset, and at
construction. -/
theorem basePath_characterisation :
    (∀ (E : Engine) (d : Data) (fp : String),
        ResvgRenderer.isResourcePath fp = false →
        (ResvgRenderer.loadFile E d fp).st.opt.path = some fp) ∧
    (∀ (E : Engine) (d : Data) (bs : Bytes),
        (ResvgRenderer.loadData E d bs).st.opt.path = none) ∧
    (∀ (E : Engine) (d : Data), (d.reset E).1.opt.path = none) ∧
    (∀ E : Engine, (Data.new E).opt.path = none) := by
  refine ⟨?_, loadData_path_none, ?_, ?_⟩
  · intro E d fp hfp
    simp only [ResvgRenderer.loadFile, hfp, Bool.false_eq_true, if_false]
    split <;> simp [ResvgRenderer.loadFileOpts]
  · intro E d
    exact initOptions_path_none E
  · intro E
    rfl

/-- C8 witness: a concrete successful filesystem-path load records the
path. -/
theorem basePath_characterisation_witness :
    (ResvgRenderer.loadFile baseEngine dNoDoc "ok.svg").st.opt.path = some "ok.svg" :=
  basePath_characterisation.1 baseEngine dNoDoc "ok.svg" (by decide)

/-- C10: a load of a `":/"`-prefixed path whose resource opens
successfully produces exactly the result of the byte-array load on the
resource contents, and `opt.path` is null afterwards — relative
references are not resolved against the resource path. -/
theorem resource_load_delegates_to_data_load (E : Engine) (d : Data)
    (fp : String) (bs : Bytes)
    (hfp : ResvgRenderer.isResourcePath fp = true)
    (hr : E.resources fp = some bs) :
    ResvgRenderer.loadFile E d fp = ResvgRenderer.loadData E d bs ∧
    (ResvgRenderer.loadFile E d fp).st.opt.path = none := by
  have h1 : ResvgRenderer.loadFile E d fp = ResvgRenderer.loadData E d bs := by
    simp [ResvgRenderer.loadFile, hfp, hr]
  exact ⟨h1, by rw [h1]; exact loadData_path_none E d bs⟩

/-- C10 witness: the concrete resource `":/ok"`. -/
theorem resource_load_delegates_to_data_load_witness :
    ResvgRenderer.loadFile baseEngine dOwned ":/ok" =
      ResvgRenderer.loadData baseEngine dOwned [10, 20] :=
  (resource_load_delegates_to_data_load baseEngine dOwned ":/ok" [10, 20]
    (by decide) rfl).1

/-- C4: with a document owned, by-id rendering (a) on a failed
bounding-box query emits exactly one warning on the diagnostic channel,
performs no engine draw call, and leaves the painter untouched; (b) on a
successful query with box `bbox` performs exactly one engine draw call
whose painter state carries the transform
`(r.w/bbox.w, 0, 0, r.h/bbox.h, bounds.x, bounds.y)` composed onto the
caller's transform, where `r` is `bounds` when valid and the viewport
otherwise — the translation taking the caller-supplied bounds' origin —
so that with zero (invalid) bounds the scales come from the viewport but
the translation is `(0, 0)`. -/
theorem renderById_warning_and_transform (E : Engine) (d : Data)
    (p : QPainter) (id : String) (bounds : QRectF) (t : Tree)
    (ht : d.tree = some t) :
    (E.getNodeBBox t d.opt id = none →
        ResvgRenderer.renderById E d p id bounds =
          (p, ⟨[], [ResvgRenderer.Warning.noBBox id]⟩)) ∧
    (∀ bbox, E.getNodeBBox t d.opt id = some bbox →
        (ResvgRenderer.renderById E d p id bounds).2.warnings = [] ∧
        (ResvgRenderer.renderById E d p id bounds).2.calls =
          [ResvgRenderer.EngineCall.byId ⟨cUInt bbox.w, cUInt bbox.h⟩ id
             { transform := QTransform.comp
                 ⟨(if bounds.isValid then bounds else p.viewport).w / bbox.w, 0, 0,
                  (if bounds.isValid then bounds else p.viewport).h / bbox.h,
                  bounds.x, bounds.y⟩ p.cur.transform
             , clip := p.cur.clip
             , hints := { p.cur.hints with antialiasing := true } }] ∧
        (bounds = QRectF.zero →
            (ResvgRenderer.renderById E d p id bounds).2.calls =
              [ResvgRenderer.EngineCall.byId ⟨cUInt bbox.w, cUInt bbox.h⟩ id
                 { transform := QTransform.comp
                     ⟨p.viewport.w / bbox.w, 0, 0, p.viewport.h / bbox.h, 0, 0⟩
                     p.cur.transform
                 , clip := p.cur.clip
                 , hints := { p.cur.hints with antialiasing := true } }])) := by
  constructor
  · intro hb
    simp [ResvgRenderer.renderById, ht, hb]
  · intro bbox hb
    refine ⟨?_, ?_, ?_⟩
    · simp [ResvgRenderer.renderById, ht, hb]
    · simp [ResvgRenderer.renderById, ht, hb, QPainter.save,
        QPainter.setRenderHintAntialiasing, QPainter.combineTransform]
    · intro hz
      subst hz
      simp [ResvgRenderer.renderById, ht, hb, QPainter.save,
        QPainter.setRenderHintAntialiasing, QPainter.combineTransform,
        QRectF.isValid, QRectF.zero]

/-- C4 witness: the failure branch at a concrete missing element — one
warning, no draw call, painter returned untouched. -/
theorem renderById_warning_and_transform_witness :
    ResvgRenderer.renderById baseEngine dOwned pEx "missing" QRectF.zero =
      (pEx, ⟨[], [ResvgRenderer.Warning.noBBox "missing"]⟩) :=
  (renderById_warning_and_transform baseEngine dOwned pEx "missing"
    QRectF.zero 0 rfl).1 rfl

/-- C5: every draw call with a document owned — whole-document with any
bounds, by-id with any bounds (including a failed bounding-box query),
and the one-argument form — returns the painter with its transform, clip
region, and render hints equal to their values before the call. -/
theorem render_preserves_painter_state (E : Engine) (d : Data)
    (p : QPainter) (bounds : QRectF) (id : String) (t : Tree)
    (ht : d.tree = some t) :
    ((ResvgRenderer.renderRect E d p bounds).1.cur.transform = p.cur.transform ∧
     (ResvgRenderer.renderRect E d p bounds).1.cur.clip = p.cur.clip ∧
     (ResvgRenderer.renderRect E d p bounds).1.cur.hints = p.cur.hints) ∧
    ((ResvgRenderer.renderById E d p id bounds).1.cur.transform = p.cur.transform ∧
     (ResvgRenderer.renderById E d p id bounds).1.cur.clip = p.cur.clip ∧
     (ResvgRenderer.renderById E d p id bounds).1.cur.hints = p.cur.hints) ∧
    (ResvgRenderer.render E d p).1.cur = p.cur := by
  have hR : ∀ b : QRectF, (ResvgRenderer.renderRect E d p b).1.cur = p.cur := by
    intro b
    simp [ResvgRenderer.renderRect, ht, QPainter.save,
      QPainter.setRenderHintAntialiasing, QPainter.combineTransform,
      QPainter.restore]
  have hI : (ResvgRenderer.renderById E d p id bounds).1.cur = p.cur := by
    cases hb : E.getNodeBBox t d.opt id <;>
      simp [ResvgRenderer.renderById, ht, hb, QPainter.save,
        QPainter.setRenderHintAntialiasing, QPainter.combineTransform,
        QPainter.restore]
  exact ⟨⟨by rw [hR], by rw [hR], by rw [hR]⟩,
         ⟨by rw [hI], by rw [hI], by rw [hI]⟩,
         hR QRectF.zero⟩

/-- C5 witness: a concrete whole-document draw returns the painter's
transform unchanged. -/
theorem render_preserves_painter_state_witness :
    (ResvgRenderer.renderRect baseEngine dOwned pEx QRectF.zero).1.cur.transform =
      pEx.cur.transform :=
  (render_preserves_painter_state baseEngine dOwned pEx QRectF.zero "e" 0 rfl).1.1

end ResvgQt
